import Mathlib

/- Verification of the CTS conformance-test framework header
   (`cts_framework.h`): the registration registry, the coverage and
   duplicate reporting, the timeout-supervised execution primitive and the
   pre/post-check hook runners, embedded shallowly and checked against the
   design document. -/

/-- Behaviour of a user-supplied hook or test body when invoked: it either
returns normally or raises an exception carrying a message (the C++
`catch (const std::exception& e)` boundary captures `e.what()`). -/
inductive HookBehavior where
  | completes
  | raises (msg : String)
deriving DecidableEq

/-- Embedding of `struct CTSFunctionInfo`: a function id and version plus
the optional pre-check and post-check hooks. In the source, `operator==`
and the `std::hash` specialisation compare only `function_id` and
`function_version`; the hook fields never take part in equality, so the
development compares the `infoKey` projection wherever the source compares
infos. -/
structure CTSFunctionInfo where
  function_id : String
  function_version : String
  pre_check_func : Option HookBehavior
  post_check_func : Option HookBehavior
deriving DecidableEq

/-- The (id, version) pair that `CTSFunctionInfo::operator==` and its hash
actually compare — the spec's FunctionIdentity. -/
structure FunctionIdentity where
  id : String
  version : String
deriving DecidableEq

/-- Projection of an info onto its equality-relevant identity. -/
def infoKey (i : CTSFunctionInfo) : FunctionIdentity :=
  ⟨i.function_id, i.function_version⟩

/-- Embedding of `CTSBase::registered_functions`, the
`unordered_map<string, CTSFunctionInfo>` from full test name to registered
info, as an association list (iteration order of the hash map is never
observed by the reported quantities, which are sets and counts). -/
abbrev Registry := List (String × CTSFunctionInfo)

/-- The full test name `test_suite + "." + test_name` built by
`RegisterCase` and by the pre/post-check lookups. -/
def fullTestName (suite name : String) : String := suite ++ "." ++ name

/-- Removes every binding of key `k`, modelling the overwrite that
`registered_functions[full_test_name] = info` performs on an existing
entry for that key. -/
def eraseKey : Registry → String → Registry
  | [], _ => []
  | p :: rest, k => if p.1 = k then eraseKey rest k else p :: eraseKey rest k

/-- Embedding of `CTSBase::RegisterCase`: stores `info` under the single
key `test_suite + "." + test_name`, overwriting any existing entry with
that key. -/
def RegisterCase (regs : Registry) (suite name : String) (info : CTSFunctionInfo) : Registry :=
  (fullTestName suite name, info) :: eraseKey regs (fullTestName suite name)

/-- Embedding of `registered_functions.find(full_test_name)`. -/
def lookupCase : Registry → String → Option CTSFunctionInfo
  | [], _ => none
  | p :: rest, k => if p.1 = k then some p.2 else lookupCase rest k

/-- The identities held by the `unordered_set<CTSFunctionInfo>` that both
`ReportUncovered` and `GetCoveragePercentage` build from the values of
`registered_functions`; insertion into that set deduplicates by
`operator==`, i.e. by `infoKey`. -/
def registeredInfoKeys (regs : Registry) : List FunctionIdentity :=
  (regs.map (fun p => infoKey p.2)).dedup

/-- Embedding of the uncovered-function scan in `CTSBase::ReportUncovered`:
the loop pushing every element of `all_functions` that the registered set
does not contain. -/
def uncoveredFunctions (all_functions : List CTSFunctionInfo) (regs : Registry) :
    List CTSFunctionInfo :=
  all_functions.filter (fun f => decide (infoKey f ∉ registeredInfoKeys regs))

/-- Embedding of the duplicate accounting in `CTSBase::ReportUncovered`:
the `count_map[func]++` loop iterates over `registered_function_infos`,
which is the already-deduplicated `unordered_set` of registered infos, so
it counts occurrences of an identity inside that set. -/
def duplicateCount (regs : Registry) (k : FunctionIdentity) : Nat :=
  (registeredInfoKeys regs).count k

/-- Embedding of the coverage figure printed at the end of
`CTSBase::ReportUncovered`:
`(all.size() - uncovered.size()) / all.size() * 100`, and `0.0` for an
empty universe; the C++ `double` arithmetic is modelled exactly in `ℚ`. -/
def reportCoverage (all_functions : List CTSFunctionInfo) (regs : Registry) : ℚ :=
  if all_functions = [] then 0
  else ((all_functions.length : ℚ) - ((uncoveredFunctions all_functions regs).length : ℚ))
    / (all_functions.length : ℚ) * 100

/-- Embedding of `CTSBase::GetCoveragePercentage`: counts the universe
elements found in the registered set and divides by the universe size,
returning `0.0` for an empty universe. -/
def GetCoveragePercentage (all_functions : List CTSFunctionInfo) (regs : Registry) : ℚ :=
  if all_functions = [] then 0
  else ((all_functions.filter (fun f => decide (infoKey f ∈ registeredInfoKeys regs))).length : ℚ)
    / (all_functions.length : ℚ) * 100

/-- Spec-side formula, for comparison with the code: the uncovered set is
the set difference `U \ C` by FunctionIdentity equality. -/
def specUncovered (U C : Finset FunctionIdentity) : Finset FunctionIdentity := U \ C

/-- Spec-side formula, for comparison with the code: the coverage
percentage is `|U ∩ C| / |U| * 100`, defined as `0` when `U` is empty. -/
def specCoveragePercent (U C : Finset FunctionIdentity) : ℚ :=
  if U = ∅ then 0 else ((U ∩ C).card : ℚ) / (U.card : ℚ) * 100

/-- Outcome of running a test body on the worker thread spawned by
`CTSBase::ExecuteWithTimeout`: the body either returns normally or raises
an exception. -/
inductive BodyResult where
  | completed
  | raised (msg : String)
deriving DecidableEq

/-- A test body as the timeout supervisor observes it: the wall-clock
milliseconds it needs to finish, and whether it returns or raises. -/
structure TestBody where
  duration : Nat
  result : BodyResult
deriving DecidableEq

/-- Value the worker lambda in `CTSBase::ExecuteWithTimeout` stores in the
promise: `true` when `test_func()` returned, `false` when one of the two
`catch` branches ran (after printing the exception to `cerr`). -/
def workerOutcome (b : TestBody) : Bool :=
  match b.result with
  | .completed => true
  | .raised _ => false

/-- Whether `future.wait_for(std::chrono::milliseconds(timeout_ms))` in
`CTSBase::ExecuteWithTimeout` reports `future_status::timeout` — the branch
that detaches the worker thread and prints the timed-out message. A
non-positive wait polls the future immediately, before the freshly spawned
worker can have set the promise, so it times out; a positive wait times out
exactly when the body needs longer than `timeout_ms`. -/
def timedOutBranch (b : TestBody) (timeout_ms : Int) : Bool :=
  decide (timeout_ms ≤ 0 ∨ (b.duration : Int) > timeout_ms)

/-- Embedding of `CTSBase::ExecuteWithTimeout`: `false` on the timeout
branch, otherwise the joined worker's promise value. The function returns a
single `Bool` — this is the complete result type of the C++ function. -/
def ExecuteWithTimeout (b : TestBody) (timeout_ms : Int) : Bool :=
  if timedOutBranch b timeout_ms then false else workerOutcome b

/-- Phases of one test execution that the `TestBody` generated by
`CTS_TEST_F_WITH_POSTCHECK_TIMEOUT` can run. -/
inductive Phase where
  | preCheck
  | body
  | postCheck
deriving DecidableEq

/-- Embedding of the `TestBody` member generated by
`CTS_TEST_F_WITH_POSTCHECK_TIMEOUT`, as the sequence of phases it executes:
it runs the timed body, then `ASSERT_TRUE(success)` — which on failure
records the failure and returns from `TestBody`, skipping everything after
it — and then `if (post_check) post_check();`. The macro's `pre_check`
argument is only stored away by `RegisterCase`; the generated `TestBody`
never invokes it, and nothing else in the header calls
`ExecutePreCheckForCurrentTest`. -/
def postCheckTimeoutTestPhases (hasPostCheck : Bool) (b : TestBody) (timeout_ms : Int) :
    List Phase :=
  if ExecuteWithTimeout b timeout_ms then
    Phase.body :: (if hasPostCheck then [Phase.postCheck] else [])
  else
    [Phase.body]

/-- Embedding of `CTSBase::ExecutePreCheckForCurrentTest` for the test with
the given suite and name: it looks the registration up by the full test
name, runs the pre-check hook when one is present, and converts an
exception raised inside the hook into the
`ADD_FAILURE() << "PreCheck failed with exception: " << e.what()` record,
appended to the failures already recorded for the test. -/
def ExecutePreCheckForCurrentTest (regs : Registry) (suite name : String)
    (failures : List String) : List String :=
  match lookupCase regs (fullTestName suite name) with
  | none => failures
  | some info =>
    match info.pre_check_func with
    | none => failures
    | some HookBehavior.completes => failures
    | some (HookBehavior.raises msg) =>
        failures ++ ["PreCheck failed with exception: " ++ msg]

/-- Embedding of `CTSBase::ExecutePostCheckForCurrentTest`, the mirror
image of the pre-check runner. -/
def ExecutePostCheckForCurrentTest (regs : Registry) (suite name : String)
    (failures : List String) : List String :=
  match lookupCase regs (fullTestName suite name) with
  | none => failures
  | some info =>
    match info.post_check_func with
    | none => failures
    | some HookBehavior.completes => failures
    | some (HookBehavior.raises msg) =>
        failures ++ ["PostCheck failed with exception: " ++ msg]

/- Helper lemmas (shared by several developments below). -/

/-- Erasing a key that `lookupCase` does not find leaves the registry
unchanged. -/
theorem eraseKey_of_lookupCase_none (regs : Registry) (k : String)
    (h : lookupCase regs k = none) : eraseKey regs k = regs := by
  induction regs with
  | nil => rfl
  | cons p rest ih =>
    by_cases hp : p.1 = k
    · simp [lookupCase, hp] at h
    · simp only [lookupCase, hp, if_false] at h
      simp [eraseKey, hp, ih h]

/-- Filtering infos by a predicate on their identity commutes with taking
identities. -/
theorem map_infoKey_filter (l : List CTSFunctionInfo) (p : FunctionIdentity → Bool) :
    (l.filter (fun f => p (infoKey f))).map infoKey = (l.map infoKey).filter p := by
  induction l with
  | nil => rfl
  | cons a t ih =>
    by_cases h : p (infoKey a)
    · simp [List.filter_cons, h, ih]
    · simp [List.filter_cons, h, ih]

/-- The covered and uncovered scans over the universe partition it. -/
theorem covered_uncovered_split (all_functions : List CTSFunctionInfo) (regs : Registry) :
    (all_functions.filter (fun f => decide (infoKey f ∈ registeredInfoKeys regs))).length
      + (uncoveredFunctions all_functions regs).length = all_functions.length := by
  induction all_functions with
  | nil => rfl
  | cons a t ih =>
    simp only [uncoveredFunctions, List.filter_cons] at ih ⊢
    by_cases h : infoKey a ∈ registeredInfoKeys regs
    · simp [h] at ih ⊢
      omega
    · simp [h] at ih ⊢
      omega

/-- C1: registering the identity ("A","v1") under the two distinct test
names `S.T1` and `S.T2` really leaves both registrations in place, yet the
duplicate accounting of `ReportUncovered` counts the identity only once,
because the `count_map[func]++` loop iterates the deduplicated identity
set; the count of at least 2 promised by the spec never occurs, and the
`registered N times` warning is unreachable. -/
theorem duplicate_identity_counted_once :
    lookupCase (RegisterCase (RegisterCase [] "S" "T1" ⟨"A", "v1", none, none⟩)
        "S" "T2" ⟨"A", "v1", none, none⟩) "S.T1" = some ⟨"A", "v1", none, none⟩
    ∧ lookupCase (RegisterCase (RegisterCase [] "S" "T1" ⟨"A", "v1", none, none⟩)
        "S" "T2" ⟨"A", "v1", none, none⟩) "S.T2" = some ⟨"A", "v1", none, none⟩
    ∧ duplicateCount (RegisterCase (RegisterCase [] "S" "T1" ⟨"A", "v1", none, none⟩)
        "S" "T2" ⟨"A", "v1", none, none⟩) ⟨"A", "v1"⟩ = 1 := by
  decide

/-- C2 counterexample: a body that faults instantly and a body that
overruns the deadline return the same value `false` from
`ExecuteWithTimeout`, while only the second takes the timed-out branch —
the returned result does not distinguish a timeout from a fault. -/
theorem timeout_not_distinguishable_in_result :
    ExecuteWithTimeout ⟨0, BodyResult.raised "boom"⟩ 1000
      = ExecuteWithTimeout ⟨2000, BodyResult.completed⟩ 1000
    ∧ timedOutBranch ⟨0, BodyResult.raised "boom"⟩ 1000 = false
    ∧ timedOutBranch ⟨2000, BodyResult.completed⟩ 1000 = true := by
  decide

/-- C2 amended: `ExecuteWithTimeout` returns a single boolean, `true`
exactly when the deadline is positive, the body finishes within it and the
body raised nothing; body faults and timeouts both collapse to `false` and
are told apart only in the `cerr` logging, not in the returned value. -/
theorem executeWithTimeout_is_boolean (b : TestBody) (t : Int) :
    ExecuteWithTimeout b t = true
      ↔ (0 < t ∧ (b.duration : Int) ≤ t ∧ b.result = BodyResult.completed) := by
  rcases b with ⟨d, r⟩
  cases r with
  | completed =>
    by_cases h : ((t : Int) ≤ 0 ∨ ((d : Nat) : Int) > t)
    · simp [ExecuteWithTimeout, timedOutBranch, workerOutcome, h]
      omega
    · simp [ExecuteWithTimeout, timedOutBranch, workerOutcome, h]
      omega
  | raised msg =>
    simp [ExecuteWithTimeout, timedOutBranch, workerOutcome]

/-- C7: when the body completes strictly before the deadline elapses,
`ExecuteWithTimeout` joins the worker and returns the worker's promised
outcome unchanged. -/
theorem executeWithTimeout_propagates_worker_outcome (b : TestBody) (t : Int)
    (h : (b.duration : Int) < t) :
    ExecuteWithTimeout b t = workerOutcome b := by
  have hb : timedOutBranch b t = false := by
    unfold timedOutBranch
    simp only [decide_eq_false_iff_not]
    omega
  unfold ExecuteWithTimeout
  rw [hb]
  simp

/-- C7 witness: a body needing 100 ms under a 1000 ms deadline has its
worker outcome propagated unchanged. -/
theorem executeWithTimeout_propagates_worker_outcome_witness :
    (((100 : Nat) : Int) < 1000)
    ∧ ExecuteWithTimeout ⟨100, BodyResult.completed⟩ 1000
        = workerOutcome ⟨100, BodyResult.completed⟩ :=
  ⟨by decide,
    executeWithTimeout_propagates_worker_outcome ⟨100, BodyResult.completed⟩ 1000 (by decide)⟩

/-- C8: a non-positive deadline makes the `wait_for` poll report a timeout
at once — the timed-out branch is taken (worker detached, timeout logged)
and the call returns `false` — instead of running the body unbounded. -/
theorem nonpositive_timeout_times_out (b : TestBody) (t : Int) (h : t ≤ 0) :
    timedOutBranch b t = true ∧ ExecuteWithTimeout b t = false := by
  have hb : timedOutBranch b t = true := by
    unfold timedOutBranch
    simp only [decide_eq_true_eq]
    exact Or.inl h
  refine ⟨hb, ?_⟩
  unfold ExecuteWithTimeout
  rw [hb]
  simp

/-- C8 witness: a 5 ms body under a deadline of 0 ms is reported as timed
out immediately. -/
theorem nonpositive_timeout_times_out_witness :
    ((0 : Int) ≤ 0)
    ∧ (timedOutBranch ⟨5, BodyResult.completed⟩ 0 = true
        ∧ ExecuteWithTimeout ⟨5, BodyResult.completed⟩ 0 = false) :=
  ⟨by decide, nonpositive_timeout_times_out ⟨5, BodyResult.completed⟩ 0 (by decide)⟩

/-- C10: `RegisterCase` keys a registration by the single concatenated
string `suite + "." + name`, so the distinct pairs ("A", "B.C") and
("A.B", "C") share the key "A.B.C": the second registration silently
overwrites the first (the registry keeps one entry for that key, next to
an unrelated entry), and lookup through either pair's full name returns
the later info. -/
theorem registerCase_fullname_collision :
    fullTestName "A" "B.C" = fullTestName "A.B" "C"
    ∧ lookupCase (RegisterCase (RegisterCase [("X.Y", ⟨"K", "v0", none, none⟩)]
          "A" "B.C" ⟨"F1", "v1", none, none⟩)
        "A.B" "C" ⟨"F2", "v2", none, none⟩) (fullTestName "A" "B.C")
      = some ⟨"F2", "v2", none, none⟩
    ∧ lookupCase (RegisterCase (RegisterCase [("X.Y", ⟨"K", "v0", none, none⟩)]
          "A" "B.C" ⟨"F1", "v1", none, none⟩)
        "A.B" "C" ⟨"F2", "v2", none, none⟩) (fullTestName "A.B" "C")
      = some ⟨"F2", "v2", none, none⟩
    ∧ (RegisterCase (RegisterCase [("X.Y", ⟨"K", "v0", none, none⟩)]
          "A" "B.C" ⟨"F1", "v1", none, none⟩)
        "A.B" "C" ⟨"F2", "v2", none, none⟩).length = 2 := by
  decide

/-- C3 counterexample: with a post-check registered (`hasPostCheck = true`),
a body that raises and a body that overruns its deadline both leave the
generated test body at the failed `ASSERT_TRUE(success)`, which returns
from `TestBody` — the post-check phase is skipped, contradicting the claim
that it also runs when the body fails or times out. -/
theorem postCheck_skipped_on_failure :
    postCheckTimeoutTestPhases true ⟨50, BodyResult.raised "assert"⟩ 1000 = [Phase.body]
    ∧ postCheckTimeoutTestPhases true ⟨2000, BodyResult.completed⟩ 800 = [Phase.body] := by
  decide

/-- C3 amended: in the test body generated by
`CTS_TEST_F_WITH_POSTCHECK_TIMEOUT`, the body phase always comes first, and
the post-check phase runs — after the body — exactly when the timed body
succeeded and a post-check is present; when the body fails, faults or times
out, the failed `ASSERT_TRUE` returns early and the post-check is
skipped. -/
theorem postCheck_runs_iff_body_succeeds (hasPostCheck : Bool) (b : TestBody) (t : Int) :
    (postCheckTimeoutTestPhases hasPostCheck b t).head? = some Phase.body
    ∧ (Phase.postCheck ∈ postCheckTimeoutTestPhases hasPostCheck b t
        ↔ (ExecuteWithTimeout b t = true ∧ hasPostCheck = true)) := by
  unfold postCheckTimeoutTestPhases
  by_cases h : ExecuteWithTimeout b t = true
  · cases hasPostCheck <;> simp [h]
  · cases hasPostCheck <;> simp [h]

/-- C4: evaluated at a timeout test whose registration carries a pre-check
and whose body succeeds, the test body generated by
`CTS_TEST_F_WITH_POSTCHECK_TIMEOUT` executes only the body and the
post-check phases: the pre-check phase never occurs, because the generated
`TestBody` never invokes the `pre_check` it registered and nothing in the
header calls `ExecutePreCheckForCurrentTest`. -/
theorem preCheck_phase_never_runs :
    postCheckTimeoutTestPhases true ⟨100, BodyResult.completed⟩ 1000
      = [Phase.body, Phase.postCheck]
    ∧ Phase.preCheck ∉ postCheckTimeoutTestPhases true ⟨100, BodyResult.completed⟩ 1000 := by
  decide

/-- C9: faults are contained to the phase in which they occur. A body that
raises is caught by the worker lambda and collapsed into the `false`
promise value, whatever the deadline, instead of escaping; a registered
pre-check or post-check that raises has exactly the phase's `ADD_FAILURE`
record — carrying the hook's message — appended to the failures already
recorded for the test, so the body's own recorded outcome is preserved, not
replaced. -/
theorem faults_contained_per_phase (regs : Registry) (suite name : String)
    (info : CTSFunctionInfo) (preMsg postMsg bodyMsg : String)
    (d : Nat) (t : Int) (failures : List String)
    (hlook : lookupCase regs (fullTestName suite name) = some info)
    (hpre : info.pre_check_func = some (HookBehavior.raises preMsg))
    (hpost : info.post_check_func = some (HookBehavior.raises postMsg)) :
    ExecuteWithTimeout ⟨d, BodyResult.raised bodyMsg⟩ t = false
    ∧ ExecutePreCheckForCurrentTest regs suite name failures
        = failures ++ ["PreCheck failed with exception: " ++ preMsg]
    ∧ ExecutePostCheckForCurrentTest regs suite name failures
        = failures ++ ["PostCheck failed with exception: " ++ postMsg] := by
  refine ⟨?_, ?_, ?_⟩
  · unfold ExecuteWithTimeout
    by_cases h : timedOutBranch ⟨d, BodyResult.raised bodyMsg⟩ t = true
    · simp [h]
    · simp [h, workerOutcome]
  · simp [ExecutePreCheckForCurrentTest, hlook, hpre]
  · simp [ExecutePostCheckForCurrentTest, hlook, hpost]

/-- C9 witness: a concrete registration whose pre-check and post-check both
raise, together with a raising body, at deadline 1000 ms and with one
already-recorded body failure. -/
theorem faults_contained_per_phase_witness :
    lookupCase [("S.T1", (⟨"A", "v1", some (HookBehavior.raises "pre boom"),
        some (HookBehavior.raises "post boom")⟩ : CTSFunctionInfo))]
      (fullTestName "S" "T1")
      = some ⟨"A", "v1", some (HookBehavior.raises "pre boom"),
          some (HookBehavior.raises "post boom")⟩
    ∧ (ExecuteWithTimeout ⟨10, BodyResult.raised "body boom"⟩ 1000 = false
        ∧ ExecutePreCheckForCurrentTest
            [("S.T1", ⟨"A", "v1", some (HookBehavior.raises "pre boom"),
                some (HookBehavior.raises "post boom")⟩)] "S" "T1"
            ["body assertion failed"]
          = ["body assertion failed"] ++ ["PreCheck failed with exception: " ++ "pre boom"]
        ∧ ExecutePostCheckForCurrentTest
            [("S.T1", ⟨"A", "v1", some (HookBehavior.raises "pre boom"),
                some (HookBehavior.raises "post boom")⟩)] "S" "T1"
            ["body assertion failed"]
          = ["body assertion failed"] ++ ["PostCheck failed with exception: " ++ "post boom"]) :=
  ⟨by decide,
    faults_contained_per_phase
      [("S.T1", ⟨"A", "v1", some (HookBehavior.raises "pre boom"),
          some (HookBehavior.raises "post boom")⟩)]
      "S" "T1"
      ⟨"A", "v1", some (HookBehavior.raises "pre boom"),
          some (HookBehavior.raises "post boom")⟩
      "pre boom" "post boom" "body boom" 10 1000 ["body assertion failed"]
      (by decide) (by decide) (by decide)⟩

/-- C5: over a universe whose elements are pairwise distinct by identity
(the `unordered_set` invariant), the uncovered scan of `ReportUncovered`
computes exactly the set difference `U \ C` by FunctionIdentity equality,
both `GetCoveragePercentage` and the percentage printed by
`ReportUncovered` equal the spec formula `|U ∩ C| / |U| * 100`, and the
percentage is `0` on the empty universe (no division by zero). -/
theorem coverage_report_refines_spec (all_functions : List CTSFunctionInfo) (regs : Registry)
    (hU : (all_functions.map infoKey).Nodup) :
    ((uncoveredFunctions all_functions regs).map infoKey).toFinset
        = specUncovered (all_functions.map infoKey).toFinset
            (registeredInfoKeys regs).toFinset
    ∧ GetCoveragePercentage all_functions regs
        = specCoveragePercent (all_functions.map infoKey).toFinset
            (registeredInfoKeys regs).toFinset
    ∧ reportCoverage all_functions regs
        = specCoveragePercent (all_functions.map infoKey).toFinset
            (registeredInfoKeys regs).toFinset
    ∧ (all_functions = [] → GetCoveragePercentage all_functions regs = 0) := by
  have hmNot := map_infoKey_filter all_functions
    (fun k => decide (k ∉ registeredInfoKeys regs))
  have hmIn := map_infoKey_filter all_functions
    (fun k => decide (k ∈ registeredInfoKeys regs))
  have h1 : ((uncoveredFunctions all_functions regs).map infoKey).toFinset
      = specUncovered (all_functions.map infoKey).toFinset
          (registeredInfoKeys regs).toFinset := by
    rw [uncoveredFunctions, hmNot]
    ext x
    simp [specUncovered, List.mem_filter]
  by_cases hnil : all_functions = []
  · subst hnil
    refine ⟨h1, ?_, ?_, fun _ => rfl⟩
    · simp [GetCoveragePercentage, specCoveragePercent]
    · simp [reportCoverage, specCoveragePercent]
  · have hUne : (all_functions.map infoKey).toFinset ≠ ∅ := by
      simp only [ne_eq, List.toFinset_eq_empty_iff, List.map_eq_nil_iff]
      exact hnil
    have hcovlen :
        ((all_functions.filter
            (fun f => decide (infoKey f ∈ registeredInfoKeys regs))).length : ℚ)
        = ((((all_functions.map infoKey).toFinset
              ∩ (registeredInfoKeys regs).toFinset)).card : ℚ) := by
      have hl1 : ((all_functions.filter
            (fun f => decide (infoKey f ∈ registeredInfoKeys regs))).map infoKey).length
          = (all_functions.filter
            (fun f => decide (infoKey f ∈ registeredInfoKeys regs))).length := by
        simp
      have hnd : ((all_functions.map infoKey).filter
          (fun k => decide (k ∈ registeredInfoKeys regs))).Nodup := hU.filter _
      have hset : ((all_functions.map infoKey).filter
            (fun k => decide (k ∈ registeredInfoKeys regs))).toFinset
          = (all_functions.map infoKey).toFinset ∩ (registeredInfoKeys regs).toFinset := by
        ext x
        simp [List.mem_filter]
      rw [← hl1, hmIn, ← List.toFinset_card_of_nodup hnd, hset]
    have hlenU : (all_functions.length : ℚ)
        = (((all_functions.map infoKey).toFinset).card : ℚ) := by
      rw [List.toFinset_card_of_nodup hU, List.length_map]
    have h2 : GetCoveragePercentage all_functions regs
        = specCoveragePercent (all_functions.map infoKey).toFinset
            (registeredInfoKeys regs).toFinset := by
      rw [GetCoveragePercentage, specCoveragePercent, if_neg hnil, if_neg hUne,
        hcovlen, hlenU]
    have hnum : ((all_functions.length : ℚ))
          - ((uncoveredFunctions all_functions regs).length : ℚ)
        = ((all_functions.filter
            (fun f => decide (infoKey f ∈ registeredInfoKeys regs))).length : ℚ) := by
      have hs := covered_uncovered_split all_functions regs
      have hq : ((all_functions.filter
            (fun f => decide (infoKey f ∈ registeredInfoKeys regs))).length : ℚ)
          + ((uncoveredFunctions all_functions regs).length : ℚ)
          = (all_functions.length : ℚ) := by
        exact_mod_cast hs
      linarith
    have h3 : reportCoverage all_functions regs
        = GetCoveragePercentage all_functions regs := by
      rw [reportCoverage, GetCoveragePercentage, if_neg hnil, if_neg hnil, hnum]
    exact ⟨h1, h2, h3.trans h2, fun h => absurd h hnil⟩

/-- C5 witness: universe of two identities, one of them covered by a single
registration; the refinement holds at this concrete input. -/
theorem coverage_report_refines_spec_witness :
    (([(⟨"A", "v1", none, none⟩ : CTSFunctionInfo),
        ⟨"B", "v1", none, none⟩].map infoKey)).Nodup
    ∧ (((uncoveredFunctions [⟨"A", "v1", none, none⟩, ⟨"B", "v1", none, none⟩]
          [("S.T1", ⟨"A", "v1", none, none⟩)]).map infoKey).toFinset
        = specUncovered ([(⟨"A", "v1", none, none⟩ : CTSFunctionInfo),
              ⟨"B", "v1", none, none⟩].map infoKey).toFinset
            (registeredInfoKeys [("S.T1", ⟨"A", "v1", none, none⟩)]).toFinset
      ∧ GetCoveragePercentage [⟨"A", "v1", none, none⟩, ⟨"B", "v1", none, none⟩]
          [("S.T1", ⟨"A", "v1", none, none⟩)]
        = specCoveragePercent ([(⟨"A", "v1", none, none⟩ : CTSFunctionInfo),
              ⟨"B", "v1", none, none⟩].map infoKey).toFinset
            (registeredInfoKeys [("S.T1", ⟨"A", "v1", none, none⟩)]).toFinset
      ∧ reportCoverage [⟨"A", "v1", none, none⟩, ⟨"B", "v1", none, none⟩]
          [("S.T1", ⟨"A", "v1", none, none⟩)]
        = specCoveragePercent ([(⟨"A", "v1", none, none⟩ : CTSFunctionInfo),
              ⟨"B", "v1", none, none⟩].map infoKey).toFinset
            (registeredInfoKeys [("S.T1", ⟨"A", "v1", none, none⟩)]).toFinset
      ∧ ([(⟨"A", "v1", none, none⟩ : CTSFunctionInfo), ⟨"B", "v1", none, none⟩] = []
          → GetCoveragePercentage [⟨"A", "v1", none, none⟩, ⟨"B", "v1", none, none⟩]
              [("S.T1", ⟨"A", "v1", none, none⟩)] = 0)) :=
  ⟨by decide,
    coverage_report_refines_spec
      [⟨"A", "v1", none, none⟩, ⟨"B", "v1", none, none⟩]
      [("S.T1", ⟨"A", "v1", none, none⟩)] (by decide)⟩

/-- C6: registering a fresh test name (one the registry does not yet
contain) whose FunctionIdentity is already covered leaves
`GetCoveragePercentage` unchanged: the registered identity set has set
semantics, so each identity counts at most once. -/
theorem register_covered_identity_keeps_coverage
    (all_functions : List CTSFunctionInfo) (regs : Registry)
    (suite name : String) (info : CTSFunctionInfo)
    (hfresh : lookupCase regs (fullTestName suite name) = none)
    (hcov : infoKey info ∈ registeredInfoKeys regs) :
    GetCoveragePercentage all_functions (RegisterCase regs suite name info)
      = GetCoveragePercentage all_functions regs := by
  have he : eraseKey regs (fullTestName suite name) = regs :=
    eraseKey_of_lookupCase_none regs _ hfresh
  have hkeys : registeredInfoKeys (RegisterCase regs suite name info)
      = registeredInfoKeys regs := by
    rw [RegisterCase, he, registeredInfoKeys, List.map_cons]
    exact List.dedup_cons_of_mem (List.mem_dedup.mp hcov)
  rw [GetCoveragePercentage, GetCoveragePercentage, hkeys]

/-- C6 witness: the identity ("A","v1") is covered by `S.T1`; registering
it again under the fresh name `S.T2` leaves the percentage unchanged. -/
theorem register_covered_identity_keeps_coverage_witness :
    lookupCase [("S.T1", (⟨"A", "v1", none, none⟩ : CTSFunctionInfo))]
        (fullTestName "S" "T2") = none
    ∧ infoKey ⟨"A", "v1", none, none⟩
        ∈ registeredInfoKeys [("S.T1", ⟨"A", "v1", none, none⟩)]
    ∧ GetCoveragePercentage [⟨"A", "v1", none, none⟩, ⟨"B", "v1", none, none⟩]
        (RegisterCase [("S.T1", ⟨"A", "v1", none, none⟩)] "S" "T2"
          ⟨"A", "v1", none, none⟩)
      = GetCoveragePercentage [⟨"A", "v1", none, none⟩, ⟨"B", "v1", none, none⟩]
        [("S.T1", ⟨"A", "v1", none, none⟩)] :=
  ⟨by decide, by decide,
    register_covered_identity_keeps_coverage
      [⟨"A", "v1", none, none⟩, ⟨"B", "v1", none, none⟩]
      [("S.T1", ⟨"A", "v1", none, none⟩)] "S" "T2"
      ⟨"A", "v1", none, none⟩ (by decide) (by decide)⟩
